import Mathlib

/-!
Verification of `src/public/replace-query-params.js`, a browser script that
rewrites headings matching the selector `h4.api-section-heading-title` whose
trimmed text content equals "Query Parameters", setting their text content to
"Parameters".  The DOM is shallowly embedded: an element is a record of tag,
class list and optional text content; a document is a list of (possibly null)
nodes; the rewrite pass is a pure function returning the updated document and
the replacement count, and the try/catch plus console logging is modelled by a
function producing the log records emitted by one invocation.  The scheduling
code at the bottom of the script (DOMContentLoaded / load handlers, the five
setTimeout calls, and the MutationObserver setup) is embedded as data.
-/

namespace ReplaceQueryParams

/-- The whitespace class trimmed by JavaScript String.prototype.trim
(restricted to the ASCII whitespace characters, which suffice here). -/
def jsWhitespace (c : Char) : Bool :=
  c == ' ' || c == '\t' || c == '\n' || c == '\r' || c == '\x0b' || c == '\x0c'

/-- Strip leading and trailing whitespace from a character list. -/
def trimChars (cs : List Char) : List Char :=
  ((cs.dropWhile jsWhitespace).reverse.dropWhile jsWhitespace).reverse

/-- Model of JavaScript String.prototype.trim, used by line 11 of the script. -/
def jsTrim (s : String) : String :=
  String.mk (trimChars s.data)

/-- A DOM element: tag name, class list, and text content.  The text content
is optional so that the null-guard on line 11 (`heading.textContent &&`) is
representable. -/
structure Element where
  tag : String
  classes : List String
  text : Option String
deriving Repr, DecidableEq

/-- A node slot in the document: `none` models a null/undefined entry, which
the guard on line 11 (`heading &&`) protects against. -/
abbrev Node := Option Element

/-- A document is the list of its nodes (the flattened element tree; the
selector used by the script is depth-independent, so a flat list suffices). -/
abbrev Document := List Node

/-- Whether an element matches the CSS selector
`h4.api-section-heading-title` from line 7 of the script. -/
def matchesSelector (e : Element) : Bool :=
  e.tag == "h4" && e.classes.contains "api-section-heading-title"

/-- `document.querySelectorAll` at the fixed selector (line 7): the matching
element nodes of the document, in document order. -/
def querySelectorAll (doc : Document) : List Node :=
  doc.filter (fun n =>
    match n with
    | some e => matchesSelector e
    | none => false)

/-- The forEach callback body, lines 10-15 of the script:
if the node is non-null, its text content is non-null and non-empty, and the
trimmed text equals "Query Parameters", set the text to "Parameters" and
count one replacement; otherwise leave the node alone. -/
def visitHeading (n : Node) : Node × Nat :=
  match n with
  | none => (none, 0)
  | some e =>
    match e.text with
    | none => (some e, 0)
    | some t =>
      if t == "" then (some e, 0)
      else if jsTrim t == "Query Parameters" then
        (some { e with text := some "Parameters" }, 1)
      else (some e, 0)

/-- Effect of one pass on a single document node: nodes returned by the
selector query are visited by the forEach body; all other nodes are
untouched. -/
def processNode (n : Node) : Node × Nat :=
  match n with
  | some e => if matchesSelector e then visitHeading (some e) else (some e, 0)
  | none => (none, 0)

/-- The scan-and-replace body of `replaceQueryParameters` (lines 7-15):
the resulting document together with the value of the `replaced` counter. -/
def scanAndReplace : Document → Document × Nat
  | [] => ([], 0)
  | n :: rest =>
    ((processNode n).1 :: (scanAndReplace rest).1,
     (processNode n).2 + (scanAndReplace rest).2)

/-- A record sent to the console: the informational per-pass count from
line 17, or the error record from line 19. -/
inductive LogRecord where
  | info (replaced : Nat)
  | error
deriving Repr, DecidableEq

/-- The whole `replaceQueryParameters` function (lines 5-21), try/catch
included.  The parameter `sel` is the outcome of the host's element-selection
step: `Except.error` models `document.querySelectorAll` throwing, in which
case the catch block logs a single error record and the document is untouched;
otherwise the scan-and-replace body runs and the informational count record is
logged.  The function is total: no exception propagates to the caller. -/
def replaceQueryParameters (sel : Except String Unit) (doc : Document) :
    Document × List LogRecord :=
  match sel with
  | Except.error _ => (doc, [LogRecord.error])
  | Except.ok _ =>
    let r := scanAndReplace doc
    (r.1, [LogRecord.info r.2])

/-- The guard condition of lines 10-11 combined with selector membership:
exactly the nodes on which the pass performs a replacement. -/
def shouldRewrite (n : Node) : Bool :=
  match n with
  | none => false
  | some e =>
    matchesSelector e &&
      match e.text with
      | none => false
      | some t => !(t == "") && (jsTrim t == "Query Parameters")

/-- The mutation performed on a node the pass rewrites. -/
def rewriteNode : Node → Node
  | none => none
  | some e => some { e with text := some "Parameters" }

/-- document.readyState values relevant to line 24. -/
inductive ReadyState where
  | loading
  | interactive
  | complete
deriving Repr, DecidableEq

/-- A registration of the rewrite pass made by the script at evaluation time:
an addEventListener handler, an immediate call, or a one-shot setTimeout. -/
inductive Registration where
  | eventHandler (event : String)
  | immediateCall
  | oneShotTimer (delayMs : Nat)
deriving Repr, DecidableEq

/-- The registrations performed by lines 24-35 of the script, in order:
DOMContentLoaded handler if the document is still loading, otherwise an
immediate invocation; then unconditionally a load handler and five one-shot
timers at 100, 300, 500, 1000 and 2000 milliseconds. -/
def scheduleInvocations (rs : ReadyState) : List Registration :=
  (if rs == ReadyState.loading then
     [Registration.eventHandler "DOMContentLoaded"]
   else
     [Registration.immediateCall]) ++
  [Registration.eventHandler "load",
   Registration.oneShotTimer 100,
   Registration.oneShotTimer 300,
   Registration.oneShotTimer 500,
   Registration.oneShotTimer 1000,
   Registration.oneShotTimer 2000]

/-- How many times a setTimeout registration with the given delay has fired
once `elapsed` milliseconds have passed since script evaluation: a one-shot
timer fires exactly once, when its delay has elapsed. -/
def oneShotTimerFireCount (delayMs elapsed : Nat) : Nat :=
  if delayMs ≤ elapsed then 1 else 0

/-- Host-environment facts the MutationObserver setup (lines 38-58) branches
on: availability of the facility, and existence of document.body at script
evaluation and at the 100ms re-check. -/
structure Env where
  mutationObserverAvailable : Bool
  bodyExistsAtEval : Bool
  bodyExistsAt100ms : Bool
deriving Repr, DecidableEq

/-- Outcome of the MutationObserver setup: whether an observer was created,
when (in ms after script evaluation) it was attached to document.body if ever,
the observe options passed, and when it is disconnected (never: the script
has no disconnect call). -/
structure ObserverSetup where
  created : Bool
  attachTimeMs : Option Nat
  childList : Bool
  subtree : Bool
  disconnectTimeMs : Option Nat
deriving Repr, DecidableEq

/-- Lines 38-58 of the script: if MutationObserver exists, create an observer
and attach it to document.body immediately when the body exists, otherwise
re-check once after 100ms and attach only if the body exists then.  The
observe options are childList and subtree, both true; nothing ever
disconnects the observer. -/
def setupObserver (env : Env) : ObserverSetup :=
  if env.mutationObserverAvailable then
    if env.bodyExistsAtEval then
      { created := true, attachTimeMs := some 0,
        childList := true, subtree := true, disconnectTimeMs := none }
    else if env.bodyExistsAt100ms then
      { created := true, attachTimeMs := some 100,
        childList := true, subtree := true, disconnectTimeMs := none }
    else
      { created := true, attachTimeMs := none,
        childList := true, subtree := true, disconnectTimeMs := none }
  else
    { created := false, attachTimeMs := none,
      childList := false, subtree := false, disconnectTimeMs := none }

/-- The observer callback (lines 39-41) simply invokes the rewrite pass. -/
def observerCallback (sel : Except String Unit) (doc : Document) :
    Document × List LogRecord :=
  replaceQueryParameters sel doc

/-- The event sources that can invoke the rewrite pass. -/
inductive Trigger where
  | domContentLoaded
  | immediate
  | windowLoad
  | timerElapsed (delayMs : Nat)
  | mutationObserved
deriving Repr, DecidableEq

/-- What each trigger site does when it fires: every call site in the script
(lines 25, 27, 30, 31-35, 40) invokes the same zero-argument
`replaceQueryParameters`. -/
def invokeFromTrigger : Trigger → Except String Unit → Document →
    Document × List LogRecord
  | Trigger.domContentLoaded, sel, doc => replaceQueryParameters sel doc
  | Trigger.immediate, sel, doc => replaceQueryParameters sel doc
  | Trigger.windowLoad, sel, doc => replaceQueryParameters sel doc
  | Trigger.timerElapsed _, sel, doc => replaceQueryParameters sel doc
  | Trigger.mutationObserved, sel, doc => replaceQueryParameters sel doc

/-- The document of the three-heading scenario from the spec. -/
def sampleDoc : Document :=
  [ some (Element.mk "h4" ["api-section-heading-title"] (some "Query Parameters")),
    some (Element.mk "h4" ["api-section-heading-title"] (some "Responses")),
    some (Element.mk "h4" ["api-section-heading-title"] (some "Query Parameters")) ]

/-! ### Helper lemmas -/

/-- Characterisation of one node step: the node is rewritten (and counted)
exactly when the combined selector-plus-guard condition holds. -/
theorem processNode_eq (n : Node) :
    processNode n = if shouldRewrite n then (rewriteNode n, 1) else (n, 0) := by
  cases n with
  | none => rfl
  | some e =>
    cases ht : e.text with
    | none =>
      cases hm : matchesSelector e <;>
        simp [processNode, visitHeading, shouldRewrite, rewriteNode, hm, ht]
    | some t =>
      cases hm : matchesSelector e <;>
        cases hz : (t == "") <;>
          cases htr : (jsTrim t == "Query Parameters") <;>
            simp [processNode, visitHeading, shouldRewrite, rewriteNode, hm, ht, hz, htr]

/-- A node carrying the replacement text never satisfies the rewrite guard. -/
theorem shouldRewrite_replacement (e : Element) :
    shouldRewrite (some { e with text := some "Parameters" }) = false := by
  have h : (!(("Parameters" : String) == "")
      && (jsTrim "Parameters" == "Query Parameters")) = false := by decide
  simp [shouldRewrite, h]
  intro _
  decide

/-- After processing, a node never satisfies the rewrite guard. -/
theorem shouldRewrite_processNode (n : Node) :
    shouldRewrite (processNode n).1 = false := by
  rw [processNode_eq]
  cases h : shouldRewrite n with
  | false => simpa using h
  | true =>
    cases n with
    | none => simp [shouldRewrite] at h
    | some e => simpa [rewriteNode] using shouldRewrite_replacement e

/-- The pass acts pointwise: the output document pairs each input node with
its processed image. -/
theorem scanAndReplace_pointwise (doc : Document) :
    List.Forall₂ (fun n m => m = (processNode n).1) doc (scanAndReplace doc).1 := by
  induction doc with
  | nil => exact List.Forall₂.nil
  | cons a rest ih => exact List.Forall₂.cons rfl ih

/-- Every node of the output document is the processed image of some node of
the input document. -/
theorem mem_scanAndReplace (doc : Document) (n : Node)
    (h : n ∈ (scanAndReplace doc).1) : ∃ m, m ∈ doc ∧ n = (processNode m).1 := by
  induction doc with
  | nil => simp [scanAndReplace] at h
  | cons a rest ih =>
    rcases List.mem_cons.mp h with h1 | h2
    · exact ⟨a, List.mem_cons_self a rest, h1⟩
    · obtain ⟨m, hm, he⟩ := ih h2
      exact ⟨m, List.mem_cons_of_mem a hm, he⟩

/-- On a document with no guard-satisfying node the pass is the identity and
counts zero replacements. -/
theorem scanAndReplace_no_rewrites (doc : Document)
    (h : ∀ n ∈ doc, shouldRewrite n = false) : scanAndReplace doc = (doc, 0) := by
  induction doc with
  | nil => rfl
  | cons a rest ih =>
    have ha : processNode a = (a, 0) := by
      rw [processNode_eq, h a (List.mem_cons_self a rest)]
      simp
    have hrest := ih (fun n hn => h n (List.mem_cons_of_mem a hn))
    simp [scanAndReplace, ha, hrest]

/-- If the processed image of a node is a selector-matching element with text
content `t`, then the trimmed `t` differs from the target phrase. -/
theorem processNode_no_target (n : Node) (e : Element) (t : String)
    (h1 : (processNode n).1 = some e) (hm : matchesSelector e = true)
    (ht : e.text = some t) : jsTrim t ≠ "Query Parameters" := by
  rw [processNode_eq] at h1
  cases hs : shouldRewrite n with
  | true =>
    simp only [hs, if_true] at h1
    cases n with
    | none => simp [rewriteNode] at h1
    | some e0 =>
      simp only [rewriteNode, Option.some.injEq] at h1
      have hte : e.text = some "Parameters" := by rw [← h1]
      rw [hte] at ht
      cases ht
      decide
  | false =>
    simp only [hs, if_false] at h1
    subst h1
    rw [shouldRewrite] at hs
    simp only [hm, Bool.true_and, ht] at hs
    rcases Bool.and_eq_false_iff.mp hs with hz | htr
    · have : t = "" := by simpa using hz
      subst this
      decide
    · exact fun hcontra => by simp [hcontra] at htr

/-! ### Claim theorems -/

/-- C1: after one rewrite pass, no element matching the selector
`h4.api-section-heading-title` has trimmed text content equal to
"Query Parameters", and every selected element that satisfied the guard at
scan time has had its text content set to exactly "Parameters". -/
theorem target_headings_eliminated (doc : Document) :
    (∀ n ∈ (scanAndReplace doc).1, ∀ e : Element, n = some e →
        matchesSelector e = true → ∀ t, e.text = some t →
          jsTrim t ≠ "Query Parameters") ∧
    List.Forall₂ (fun n m => shouldRewrite n = true →
        ∃ e : Element, n = some e ∧ m = some { e with text := some "Parameters" })
      doc (scanAndReplace doc).1 := by
  constructor
  · intro n hn e hne hm t ht
    obtain ⟨m, _, he⟩ := mem_scanAndReplace doc n hn
    rw [he] at hne
    exact processNode_no_target m e t hne hm ht
  · refine (scanAndReplace_pointwise doc).imp ?_
    intro n m hnm hs
    cases n with
    | none => simp [shouldRewrite] at hs
    | some e =>
      refine ⟨e, rfl, ?_⟩
      rw [hnm, processNode_eq, hs]
      simp [rewriteNode]

/-- C1 witness: the elimination property instantiated on the concrete
three-heading document. -/
theorem target_headings_eliminated_witness :
    ∀ n ∈ (scanAndReplace sampleDoc).1, ∀ e : Element, n = some e →
      matchesSelector e = true → ∀ t, e.text = some t →
        jsTrim t ≠ "Query Parameters" :=
  (target_headings_eliminated sampleDoc).1

/-- C2: the rewrite pass is idempotent: a second pass on the result of a
first pass returns that document unchanged with a replacement count of zero,
and the logged record of the second invocation reports zero replacements. -/
theorem rewrite_pass_idempotent (doc : Document) :
    scanAndReplace (scanAndReplace doc).1 = ((scanAndReplace doc).1, 0) ∧
    replaceQueryParameters (Except.ok ()) (scanAndReplace doc).1 =
      ((scanAndReplace doc).1, [LogRecord.info 0]) := by
  have hall : ∀ n ∈ (scanAndReplace doc).1, shouldRewrite n = false := by
    intro n hn
    obtain ⟨m, _, he⟩ := mem_scanAndReplace doc n hn
    rw [he]
    exact shouldRewrite_processNode m
  have h1 := scanAndReplace_no_rewrites (scanAndReplace doc).1 hall
  exact ⟨h1, by simp [replaceQueryParameters, h1]⟩

/-- C2 witness: idempotence instantiated on the concrete three-heading
document. -/
theorem rewrite_pass_idempotent_witness :
    scanAndReplace (scanAndReplace sampleDoc).1 = ((scanAndReplace sampleDoc).1, 0) :=
  (rewrite_pass_idempotent sampleDoc).1

/-- C3: the match is exact after trimming: a selector-matching heading whose
text is "Query Parameters " (trailing space) is replaced, a selector-matching
heading whose text is the strict superstring "Query Parameters List" is left
unchanged, and more generally any selector-matching heading whose trimmed
text differs from "Query Parameters" is left unchanged. -/
theorem exact_match_after_trim (e1 e2 : Element)
    (h1 : matchesSelector e1 = true) (h2 : matchesSelector e2 = true)
    (ht1 : e1.text = some "Query Parameters ")
    (ht2 : e2.text = some "Query Parameters List") :
    processNode (some e1) = (some { e1 with text := some "Parameters" }, 1) ∧
    processNode (some e2) = (some e2, 0) ∧
    (∀ (e : Element) (t : String), matchesSelector e = true → e.text = some t →
       jsTrim t ≠ "Query Parameters" → processNode (some e) = (some e, 0)) := by
  refine ⟨?_, ?_, ?_⟩
  · have hz : (("Query Parameters " : String) == "") = false := by decide
    have htr : (jsTrim "Query Parameters " == "Query Parameters") = true := by decide
    simp [processNode, visitHeading, h1, ht1, hz, htr]
  · have hz : (("Query Parameters List" : String) == "") = false := by decide
    have htr : (jsTrim "Query Parameters List" == "Query Parameters") = false := by
      decide
    simp [processNode, visitHeading, h2, ht2, hz, htr]
  · intro e t hm ht hne
    have htr : (jsTrim t == "Query Parameters") = false := by
      simpa using hne
    cases hz : (t == "") <;> simp [processNode, visitHeading, hm, ht, hz, htr]

/-- C3 witness: the exact-match policy evaluated on two concrete headings,
one with a trailing space (replaced) and one with a strict superstring text
(untouched). -/
theorem exact_match_after_trim_witness :
    processNode (some (Element.mk "h4" ["api-section-heading-title"]
        (some "Query Parameters "))) =
      (some (Element.mk "h4" ["api-section-heading-title"] (some "Parameters")), 1) ∧
    processNode (some (Element.mk "h4" ["api-section-heading-title"]
        (some "Query Parameters List"))) =
      (some (Element.mk "h4" ["api-section-heading-title"]
        (some "Query Parameters List")), 0) :=
  ⟨(exact_match_after_trim
      (Element.mk "h4" ["api-section-heading-title"] (some "Query Parameters "))
      (Element.mk "h4" ["api-section-heading-title"] (some "Query Parameters List"))
      (by decide) (by decide) rfl rfl).1,
   (exact_match_after_trim
      (Element.mk "h4" ["api-section-heading-title"] (some "Query Parameters "))
      (Element.mk "h4" ["api-section-heading-title"] (some "Query Parameters List"))
      (by decide) (by decide) rfl rfl).2.1⟩

/-- C4: on the document with three selected headings whose texts are
"Query Parameters", "Responses", "Query Parameters", one invocation leaves
the texts "Parameters", "Responses", "Parameters" and logs a single
informational record with a replacement count of exactly 2. -/
theorem three_heading_scenario :
    replaceQueryParameters (Except.ok ()) sampleDoc =
      ([ some (Element.mk "h4" ["api-section-heading-title"] (some "Parameters")),
         some (Element.mk "h4" ["api-section-heading-title"] (some "Responses")),
         some (Element.mk "h4" ["api-section-heading-title"] (some "Parameters")) ],
       [LogRecord.info 2]) := by
  decide

/-- C5: frame property: every node on which the combined selector-and-guard
condition fails — a null slot, a non-matching element even with the exact
target text, or a matching heading with any other text — is returned
unchanged by the pass. -/
theorem only_matching_target_rewritten (doc : Document) :
    List.Forall₂ (fun n m => shouldRewrite n = false → m = n)
      doc (scanAndReplace doc).1 := by
  refine (scanAndReplace_pointwise doc).imp ?_
  intro n m hnm hs
  rw [hnm, processNode_eq, hs]
  simp

/-- C5 witness: the frame property instantiated on a concrete document whose
elements carry the exact target text but do not match the selector (wrong
tag, then wrong class). -/
theorem only_matching_target_rewritten_witness :
    List.Forall₂ (fun n m => shouldRewrite n = false → m = n)
      [ some (Element.mk "div" ["api-section-heading-title"] (some "Query Parameters")),
        some (Element.mk "h4" [] (some "Query Parameters")),
        none ]
      (scanAndReplace
        [ some (Element.mk "div" ["api-section-heading-title"] (some "Query Parameters")),
          some (Element.mk "h4" [] (some "Query Parameters")),
          none ]).1 :=
  only_matching_target_rewritten
    [ some (Element.mk "div" ["api-section-heading-title"] (some "Query Parameters")),
      some (Element.mk "h4" [] (some "Query Parameters")),
      none ]

/-- C6: when the element-selection step throws, the invocation returns
normally (no exception propagates), leaves the document untouched, and emits
exactly one error-level record and no informational count record. -/
theorem selection_error_caught_and_logged (doc : Document) (msg : String) :
    replaceQueryParameters (Except.error msg) doc = (doc, [LogRecord.error]) :=
  rfl

/-- C6 witness: the failure-isolation property evaluated at a concrete
document and a concrete exception message. -/
theorem selection_error_caught_and_logged_witness :
    replaceQueryParameters (Except.error "selection failed") sampleDoc =
      (sampleDoc, [LogRecord.error]) :=
  selection_error_caught_and_logged sampleDoc "selection failed"

/-- C7: at script evaluation, the scheduling protocol registers a
DOMContentLoaded handler exactly when the readyState is loading (otherwise
one immediate invocation), always registers a window load handler, and always
registers exactly five one-shot timers at 100, 300, 500, 1000 and 2000
milliseconds, each of which fires at most once. -/
theorem scheduling_registrations (rs : ReadyState) :
    (scheduleInvocations rs).filterMap
        (fun r => match r with
          | Registration.oneShotTimer d => some d
          | _ => none) = [100, 300, 500, 1000, 2000] ∧
    (scheduleInvocations rs).count (Registration.eventHandler "load") = 1 ∧
    (rs = ReadyState.loading →
       (scheduleInvocations rs).count
           (Registration.eventHandler "DOMContentLoaded") = 1 ∧
       (scheduleInvocations rs).count Registration.immediateCall = 0) ∧
    (rs ≠ ReadyState.loading →
       (scheduleInvocations rs).count Registration.immediateCall = 1 ∧
       (scheduleInvocations rs).count
           (Registration.eventHandler "DOMContentLoaded") = 0) ∧
    (∀ delay elapsed : Nat, oneShotTimerFireCount delay elapsed ≤ 1) := by
  refine ⟨?_, ?_, ?_, ?_, ?_⟩
  · cases rs <;> decide
  · cases rs <;> decide
  · intro h
    subst h
    decide
  · intro h
    cases rs with
    | loading => exact absurd rfl h
    | interactive => decide
    | complete => decide
  · intro delay elapsed
    simp only [oneShotTimerFireCount]
    split <;> simp

/-- C7 witness: the conditional registrations evaluated in both readyState
regimes: loading (DOMContentLoaded handler, no immediate call) and complete
(immediate call, no DOMContentLoaded handler). -/
theorem scheduling_registrations_witness :
    ((scheduleInvocations ReadyState.loading).count
        (Registration.eventHandler "DOMContentLoaded") = 1 ∧
     (scheduleInvocations ReadyState.loading).count Registration.immediateCall = 0) ∧
    ((scheduleInvocations ReadyState.complete).count Registration.immediateCall = 1 ∧
     (scheduleInvocations ReadyState.complete).count
        (Registration.eventHandler "DOMContentLoaded") = 0) :=
  ⟨(scheduling_registrations ReadyState.loading).2.2.1 rfl,
   (scheduling_registrations ReadyState.complete).2.2.2.1 (by decide)⟩

/-- C8: when the mutation-observation facility exists, an observer whose
callback is the rewrite pass is attached to the document body with childList
and subtree observation: immediately when the body exists at script
evaluation, after the single 100ms re-check when the body appears by then,
and not at all when the body still does not exist at the re-check; once
attached it is never disconnected. -/
theorem observer_attachment (env : Env)
    (h : env.mutationObserverAvailable = true) :
    (env.bodyExistsAtEval = true → setupObserver env =
       { created := true, attachTimeMs := some 0, childList := true,
         subtree := true, disconnectTimeMs := none }) ∧
    (env.bodyExistsAtEval = false → env.bodyExistsAt100ms = true →
       setupObserver env =
       { created := true, attachTimeMs := some 100, childList := true,
         subtree := true, disconnectTimeMs := none }) ∧
    (env.bodyExistsAtEval = false → env.bodyExistsAt100ms = false →
       setupObserver env =
       { created := true, attachTimeMs := none, childList := true,
         subtree := true, disconnectTimeMs := none }) ∧
    (setupObserver env).disconnectTimeMs = none ∧
    (∀ sel doc, observerCallback sel doc = replaceQueryParameters sel doc) := by
  refine ⟨?_, ?_, ?_, ?_, fun sel doc => rfl⟩
  · intro hb
    simp [setupObserver, h, hb]
  · intro hb hb100
    simp [setupObserver, h, hb, hb100]
  · intro hb hb100
    simp [setupObserver, h, hb, hb100]
  · cases ha : env.mutationObserverAvailable <;>
      cases hb : env.bodyExistsAtEval <;>
        cases hc : env.bodyExistsAt100ms <;>
          simp [setupObserver, ha, hb, hc]

/-- C8 witness: observer setup evaluated in a concrete environment where the
facility exists and the body exists at script evaluation. -/
theorem observer_attachment_witness :
    setupObserver (Env.mk true true true) =
      { created := true, attachTimeMs := some 0, childList := true,
        subtree := true, disconnectTimeMs := none } :=
  (observer_attachment (Env.mk true true true) rfl).1 rfl

/-- C9: the forEach body is total on degenerate nodes: a null slot, an
element with null text content, and an element with empty text content are
all skipped by the guard — returned unchanged with a replacement count of
zero and no exception. -/
theorem degenerate_nodes_skipped (n : Node)
    (h : n = none ∨ ∃ e : Element, n = some e ∧
        (e.text = none ∨ e.text = some "")) :
    visitHeading n = (n, 0) := by
  rcases h with rfl | ⟨e, rfl, he | he⟩
  · rfl
  · simp [visitHeading, he]
  · simp [visitHeading, he]

/-- C9 witness: the guard evaluated at a null slot. -/
theorem degenerate_nodes_skipped_witness :
    visitHeading none = ((none : Node), 0) :=
  degenerate_nodes_skipped none (Or.inl rfl)

/-- C10: the rewrite pass is deterministic and trigger-independent: on
identical document states (and the same selection outcome), any two trigger
sources produce the same resulting document and the same log records,
replacement count included. -/
theorem pass_trigger_independent (t1 t2 : Trigger) (sel : Except String Unit)
    (doc : Document) :
    invokeFromTrigger t1 sel doc = invokeFromTrigger t2 sel doc := by
  cases t1 <;> cases t2 <;> rfl

/-- C10 witness: a load-event invocation and a timer invocation on the
concrete three-heading document coincide. -/
theorem pass_trigger_independent_witness :
    invokeFromTrigger Trigger.windowLoad (Except.ok ()) sampleDoc =
      invokeFromTrigger (Trigger.timerElapsed 100) (Except.ok ()) sampleDoc :=
  pass_trigger_independent Trigger.windowLoad (Trigger.timerElapsed 100)
    (Except.ok ()) sampleDoc

end ReplaceQueryParams
